import Mathlib

/-!
Verification development for the ldap-rest-client request pipeline.

The embedding translates the HMAC request signer (src/lib/HmacAuth.ts), the
error taxonomy (src/errors/ApiError.ts, src/errors/LdapRestError.ts) and the
HTTP client (src/lib/HttpClient.ts) into Lean definitions.  The cryptographic
primitives from the node standard library (createHash, createHmac) and the
JSON serializer are external to the repository and are taken as abstract
function parameters; everything the repository itself computes is modelled
concretely.
-/

namespace LdapRest

/-! ## HmacAuth (src/lib/HmacAuth.ts) -/

/-- Configuration for the HMAC authentication handler. -/
structure HmacAuthConfig where
  serviceId : String
  secret : String

/-- Parameters for request signature generation.  The body is the request
body as a string when present, mirroring the optional field. -/
structure SignatureParams where
  method : String
  path : String
  body : Option String
deriving Repr, DecidableEq

/-- HMAC signature components. -/
structure HmacSignature where
  serviceId : String
  timestamp : Nat
  signature : String
deriving Repr, DecidableEq

namespace HmacAuth

/-- Embeds HmacAuth.hashBody.  For GET, DELETE and HEAD the result is the
empty string; otherwise an absent or blank-after-trim body gives the empty
string, and any other body is hashed with the external sha256 hex digest
(a parameter, since createHash is node library code). -/
def hashBody (sha256hex : String → String) (method : String) (body : Option String) : String :=
  let upperMethod := method.toUpper
  if upperMethod = "GET" ∨ upperMethod = "DELETE" ∨ upperMethod = "HEAD" then
    ""
  else
    match body with
    | none => ""
    | some b => if b.trim.length = 0 then "" else sha256hex b

/-- Embeds HmacAuth.generateSignature.  The wall-clock timestamp, read once
per call in the source, is passed in explicitly. -/
def generateSignature (sha256hex : String → String)
    (hmacSha256hex : String → String → String)
    (config : HmacAuthConfig) (params : SignatureParams) (timestamp : Nat) :
    HmacSignature :=
  let bodyHash := hashBody sha256hex params.method params.body
  let signingString :=
    params.method.toUpper ++ "|" ++ params.path ++ "|" ++ toString timestamp ++ "|" ++ bodyHash
  let signature := hmacSha256hex config.secret signingString
  { serviceId := config.serviceId, timestamp := timestamp, signature := signature }

/-- Embeds HmacAuth.sign: formats the components returned by
generateSignature into the Authorization header value. -/
def sign (sha256hex : String → String) (hmacSha256hex : String → String → String)
    (config : HmacAuthConfig) (params : SignatureParams) (timestamp : Nat) : String :=
  let s := generateSignature sha256hex hmacSha256hex config params timestamp
  "HMAC-SHA256 " ++ s.serviceId ++ ":" ++ toString s.timestamp ++ ":" ++ s.signature

end HmacAuth

/-! ## Error taxonomy (src/errors/LdapRestError.ts, src/errors/ApiError.ts) -/

/-- Which concrete error class an error object was built with. -/
inductive ErrKind where
  | validation
  | authentication
  | authorization
  | notFound
  | conflict
  | rateLimit
  | api
  | network
deriving Repr, DecidableEq

/-- Value of the retryAfter field of a rate limit error: undefined when the
header is absent or empty, NaN when parseInt fails, otherwise the parsed
integer. -/
inductive RetryAfterVal where
  | absent
  | nan
  | val (n : Int)
deriving Repr, DecidableEq

mutual
/-- A constructed error object: class tag plus the message, statusCode, code,
retryAfter and cause fields it carries. -/
inductive ErrRecord where
  | mk (kind : ErrKind) (message : String) (statusCode : Option Nat)
      (code : Option String) (retryAfter : RetryAfterVal) (cause : Option Thrown)

/-- A value rejected by the transport: an Error named AbortError, an error
object of this library, some other Error carrying a message, or a thrown
value that is not an Error at all. -/
inductive Thrown where
  | abortError (message : String)
  | pipelineErr (e : ErrRecord)
  | otherError (message : String)
  | nonError
end

def ErrRecord.kind : ErrRecord → ErrKind
  | .mk k _ _ _ _ _ => k

def ErrRecord.message : ErrRecord → String
  | .mk _ m _ _ _ _ => m

def ErrRecord.statusCode : ErrRecord → Option Nat
  | .mk _ _ s _ _ _ => s

def ErrRecord.code : ErrRecord → Option String
  | .mk _ _ _ c _ _ => c

def ErrRecord.retryAfter : ErrRecord → RetryAfterVal
  | .mk _ _ _ _ r _ => r

def ErrRecord.cause : ErrRecord → Option Thrown
  | .mk _ _ _ _ _ c => c

/-- The javascript expression code or default: the default is used when the
code is undefined or the empty string (both falsy). -/
def jsOrDefault (code : Option String) (dflt : String) : String :=
  match code with
  | some s => if s = "" then dflt else s
  | none => dflt

/-- ValidationError: statusCode 400, code VALIDATION_ERROR. -/
def ValidationError (message : String) : ErrRecord :=
  .mk .validation message (some 400) (some "VALIDATION_ERROR") .absent none

/-- AuthenticationError: statusCode 401, code AUTHENTICATION_ERROR. -/
def AuthenticationError (message : String) : ErrRecord :=
  .mk .authentication message (some 401) (some "AUTHENTICATION_ERROR") .absent none

/-- AuthorizationError: statusCode 403, code AUTHORIZATION_ERROR. -/
def AuthorizationError (message : String) : ErrRecord :=
  .mk .authorization message (some 403) (some "AUTHORIZATION_ERROR") .absent none

/-- NotFoundError: statusCode 404; the code argument defaults to NOT_FOUND
only when it is falsy (absent or the empty string). -/
def NotFoundError (message : String) (code : Option String) : ErrRecord :=
  .mk .notFound message (some 404) (some (jsOrDefault code "NOT_FOUND")) .absent none

/-- ConflictError: statusCode 409; the code argument defaults to CONFLICT
only when it is falsy (absent or the empty string). -/
def ConflictError (message : String) (code : Option String) : ErrRecord :=
  .mk .conflict message (some 409) (some (jsOrDefault code "CONFLICT")) .absent none

/-- RateLimitError: statusCode 429, code RATE_LIMIT_EXCEEDED, plus the
retryAfter field. -/
def RateLimitError (message : String) (retryAfter : RetryAfterVal) : ErrRecord :=
  .mk .rateLimit message (some 429) (some "RATE_LIMIT_EXCEEDED") retryAfter none

/-- The generic ApiError class.  The message may arrive undefined through
ApiError.fromResponse, in which case the Error constructor stores the empty
string; the code field is stored as given, possibly undefined. -/
def ApiError (message : Option String) (statusCode : Nat) (code : Option String) : ErrRecord :=
  .mk .api (message.getD "") (some statusCode) code .absent none

/-- NetworkError: no statusCode and no code, optionally wrapping a cause. -/
def NetworkError (message : String) (cause : Option Thrown) : ErrRecord :=
  .mk .network message none none .absent cause

/-! ## HTTP responses and body parsing (src/lib/HttpClient.ts) -/

/-- Outcome of parsing a response body as JSON, abstracted to the parts the
client inspects: a falsy value (null, false, 0, the empty string or NaN), or
a truthy value with its optional error and code string fields. -/
inductive JsonVal where
  | falsy
  | obj (error : Option String) (code : Option String)
deriving Repr, DecidableEq

/-- A response body: either json() rejects, or it resolves to a value. -/
inductive BodyParse where
  | unparseable
  | parsed (v : JsonVal)
deriving Repr, DecidableEq

/-- The parts of a fetch Response the client reads: status, statusText, the
content-type and retry-after headers, and the JSON body parse outcome. -/
structure HttpResponse where
  status : Nat
  statusText : String
  contentType : Option String
  retryAfterHeader : Option String
  body : BodyParse
deriving Repr, DecidableEq

/-- Whether one character list starts with another. -/
def startsList : List Char → List Char → Bool
  | [], _ => true
  | _ :: _, [] => false
  | a :: as, b :: bs => a == b && startsList as bs

/-- Whether the pattern occurs somewhere in the character list. -/
def substrAt (pat : List Char) : List Char → Bool
  | [] => startsList pat []
  | c :: t => startsList pat (c :: t) || substrAt pat t

/-- The javascript String.prototype.includes test. -/
def jsIncludes (s pat : String) : Bool :=
  substrAt pat.data s.data

/-- The content type check of handleResponse: optional chaining makes an
absent header fail the check. -/
def contentTypeIsJson (contentType : Option String) : Bool :=
  match contentType with
  | some ct => jsIncludes ct "application/json"
  | none => false

/-- The javascript parseInt with radix 10: skip surrounding whitespace, read
an optional sign then leading decimal digits; none stands for NaN. -/
def jsParseInt (s : String) : Option Int :=
  let cs := s.trim.data
  let signed : Int × List Char :=
    match cs with
    | '-' :: r => (-1, r)
    | '+' :: r => (1, r)
    | r => (1, r)
  let ds := signed.2.takeWhile Char.isDigit
  if ds.isEmpty then none
  else some (signed.1 * (ds.foldl (fun acc c => acc * 10 + (c.toNat - 48)) 0 : Nat))

/-- The errorBody local of handleResponse: undefined when parsing rejected,
otherwise the parsed value. -/
def errorBodyOf : BodyParse → Option JsonVal
  | .unparseable => none
  | .parsed v => some v

/-- Optional chaining access to the error field of the parsed body. -/
def errField : Option JsonVal → Option String
  | some (.obj e _) => e
  | _ => none

/-- Optional chaining access to the code field of the parsed body. -/
def codeField : Option JsonVal → Option String
  | some (.obj _ c) => c
  | _ => none

/-- The message local of handleResponse: the parsed error field, or the
formatted fallback. -/
def responseMessage (r : HttpResponse) : String :=
  (errField (errorBodyOf r.body)).getD
    ("HTTP " ++ toString r.status ++ ": " ++ r.statusText)

/-- The code local of handleResponse: the parsed code field, or
UNKNOWN_ERROR. -/
def responseCode (r : HttpResponse) : String :=
  (codeField (errorBodyOf r.body)).getD "UNKNOWN_ERROR"

/-- The retryAfter argument built for RateLimitError: the header string is
tested for truthiness, then parsed with parseInt. -/
def retryAfterOf (header : Option String) : RetryAfterVal :=
  match header with
  | some h =>
    if h = "" then .absent
    else
      match jsParseInt h with
      | some n => .val n
      | none => .nan
  | none => .absent

/-- ApiError.fromResponse: builds the generic error from the body's error
and code fields directly, without the fallback defaults. -/
def ApiError.fromResponse (statusCode : Nat) (v : JsonVal) : ErrRecord :=
  match v with
  | .obj e c => ApiError e statusCode c
  | .falsy => ApiError none statusCode none

/-- A successful result: the canonical success object produced for 204, or
the parsed JSON body. -/
inductive SuccessValue where
  | successTrue
  | parsed (v : JsonVal)
deriving Repr, DecidableEq

/-- What a call to handleResponse does: return a value, throw one of the
library errors, or let the raw body parse rejection of a 2xx JSON response
escape unclassified. -/
inductive HandleOutcome where
  | success (v : SuccessValue)
  | thrown (e : ErrRecord)
  | bodyParseFailure

/-- Embeds HttpClient.handleResponse.  response.ok is status 200 to 299; 204
short-circuits to the success object; other 2xx responses require a JSON
content type and return the parsed body; non-2xx statuses are mapped through
the error taxonomy, with the message and code locals computed from the
optionally parsed error body. -/
def handleResponse (r : HttpResponse) : HandleOutcome :=
  if 200 ≤ r.status ∧ r.status ≤ 299 then
    if r.status = 204 then
      .success .successTrue
    else if contentTypeIsJson r.contentType = false then
      .thrown (ApiError (some "Expected JSON response") r.status (some "INVALID_RESPONSE"))
    else
      match r.body with
      | .unparseable => .bodyParseFailure
      | .parsed v => .success (.parsed v)
  else
    let message := responseMessage r
    let code := responseCode r
    if r.status = 400 then .thrown (ValidationError message)
    else if r.status = 401 then .thrown (AuthenticationError message)
    else if r.status = 403 then .thrown (AuthorizationError message)
    else if r.status = 404 then .thrown (NotFoundError message (some code))
    else if r.status = 409 then .thrown (ConflictError message (some code))
    else if r.status = 429 then
      .thrown (RateLimitError message (retryAfterOf r.retryAfterHeader))
    else
      match errorBodyOf r.body with
      | some (.obj e c) => .thrown (ApiError.fromResponse r.status (.obj e c))
      | _ => .thrown (ApiError (some message) r.status (some code))

/-! ## Request building (HttpClient.request, first half) -/

/-- HTTP configuration: base URL and the timeout in milliseconds. -/
structure HttpConfig where
  baseUrl : String
  timeout : Nat

/-- Options of a request: method, path, an optional body value of arbitrary
type and optional extra headers, the latter modelled by their lookup
function. -/
structure RequestOptions (β : Type) where
  method : String
  path : String
  body : Option β
  headers : Option (String → Option String)

/-- Lookup in the caller-supplied extra headers. -/
def RequestOptions.extHeader {β : Type} (options : RequestOptions β) (k : String) :
    Option String :=
  match options.headers with
  | some ext => ext k
  | none => none

/-- The arguments handed to fetch: url, method, the final header object as a
lookup function, the body string, and whether ambient credentials were
requested.  signParams records the parameters handed to the signer. -/
structure FetchCall where
  url : String
  method : String
  headers : String → Option String
  body : Option String
  credentialsInclude : Bool
  signParams : SignatureParams

/-- Embeds the building phase of HttpClient.request: serialize the body once
(JSON.stringify is external, passed as a parameter, together with the
truthiness test applied by the conditional), sign, build the header object
with the JSON content type default overridden by caller headers and the
Authorization assignment overriding both when the auth header is truthy, and
request ambient credentials exactly when no truthy auth header exists. -/
def buildFetchCall {β : Type} (stringify : β → String) (truthy : β → Bool)
    (auth : Option (SignatureParams → String)) (config : HttpConfig)
    (options : RequestOptions β) : FetchCall :=
  let url := config.baseUrl ++ options.path
  let bodyString : Option String :=
    match options.body with
    | some b => if truthy b then some (stringify b) else none
    | none => none
  let sp : SignatureParams := ⟨options.method, options.path, bodyString⟩
  let authHeader : Option String := auth.map (fun sgn => sgn sp)
  let authTruthy : Bool :=
    match authHeader with
    | some s => !(s == "")
    | none => false
  let baseHeaders : String → Option String := fun k =>
    if k = "Content-Type" then some "application/json" else none
  let merged : String → Option String := fun k =>
    match options.headers with
    | some ext => (ext k).orElse (fun _ => baseHeaders k)
    | none => baseHeaders k
  let finalHeaders : String → Option String := fun k =>
    if authTruthy = true ∧ k = "Authorization" then authHeader else merged k
  { url := url
    method := options.method
    headers := finalHeaders
    body := bodyString
    credentialsInclude := !authTruthy
    signParams := sp }

/-! ## Transport failure classification (HttpClient.request, catch clause) -/

/-- Embeds the catch clause of HttpClient.request.  An Error named
AbortError becomes the timeout NetworkError; an instance of NetworkError or
of the generic ApiError class is re-thrown unchanged (the specialized
variants extend LdapRestError directly, so they do not pass this test); any
other failure is wrapped as a NetworkError whose cause is the original
Error when there is one. -/
def classifyThrown (timeout : Nat) : Thrown → ErrRecord
  | .abortError _ => NetworkError ("Request timeout after " ++ toString timeout ++ "ms") none
  | .pipelineErr e =>
    if e.kind = .network ∨ e.kind = .api then e
    else NetworkError ("Network request failed: " ++ e.message) (some (.pipelineErr e))
  | .otherError m => NetworkError ("Network request failed: " ++ m) (some (.otherError m))
  | .nonError => NetworkError "Network request failed: Unknown error" none

/-- What the transport did: produced a response, or rejected. -/
inductive FetchOutcome where
  | ok (response : HttpResponse)
  | err (t : Thrown)

/-- Overall outcome of one request call as observed by the caller. -/
inductive RequestOutcome where
  | success (v : SuccessValue)
  | failure (e : ErrRecord)
  | bodyParseFailure

/-- Embeds the settling phase of HttpClient.request: a response goes through
handleResponse (whose rejections are returned unawaited, bypassing the catch
clause), a transport rejection goes through the catch clause. -/
def settleRequest (config : HttpConfig) (outcome : FetchOutcome) : RequestOutcome :=
  match outcome with
  | .ok response =>
    match handleResponse response with
    | .success v => .success v
    | .thrown e => .failure e
    | .bodyParseFailure => .bodyParseFailure
  | .err t => .failure (classifyThrown config.timeout t)

/-- Embeds HttpClient.request end to end: the fetch call that is issued and
the outcome the caller observes for a given transport behaviour. -/
def request {β : Type} (stringify : β → String) (truthy : β → Bool)
    (auth : Option (SignatureParams → String)) (config : HttpConfig)
    (options : RequestOptions β) (outcome : FetchOutcome) :
    FetchCall × RequestOutcome :=
  (buildFetchCall stringify truthy auth config options, settleRequest config outcome)

/-! ## Claims about response classification -/

/-- Claim C2, counterexample: a 500 response whose JSON body parses to a
truthy object without an error field goes through ApiError.fromResponse, so
the thrown error's message is the empty string and not the fallback
"HTTP 500: Internal Server Error" the claim requires, and its code is
absent rather than defaulted. -/
theorem handleResponse_generic_counterexample :
    handleResponse ⟨500, "Internal Server Error", none, none, .parsed (.obj none none)⟩ =
      .thrown (.mk .api "" (some 500) none .absent none)
    ∧ (ErrRecord.mk .api "" (some 500) none .absent none).message ≠
      "HTTP 500: Internal Server Error" := by
  exact ⟨rfl, by decide⟩

/-- Claim C2 as amended: status 204 yields the success object with no body
parse; other 2xx statuses without a JSON content type throw the
INVALID_RESPONSE Api error at the response status; a parseable 2xx JSON
response yields the parsed body; 400, 401, 403, 404, 409 and 429 throw their
variants with message the parsed error field or the formatted fallback, 429
reading retry-after through parseInt when the header is nonempty; any other
non-2xx status throws a generic Api error, built from the body's raw error
and code fields when a truthy body parsed (empty message when the error
field is absent), and from the fallback message and UNKNOWN_ERROR code
otherwise. -/
theorem handleResponse_classification (r : HttpResponse) :
    (r.status = 204 → handleResponse r = .success .successTrue)
    ∧ (200 ≤ r.status → r.status ≤ 299 → r.status ≠ 204 →
        contentTypeIsJson r.contentType = false →
        handleResponse r =
          .thrown (ApiError (some "Expected JSON response") r.status (some "INVALID_RESPONSE")))
    ∧ (∀ v, 200 ≤ r.status → r.status ≤ 299 → r.status ≠ 204 →
        contentTypeIsJson r.contentType = true → r.body = .parsed v →
        handleResponse r = .success (.parsed v))
    ∧ (r.status = 400 → handleResponse r = .thrown (ValidationError (responseMessage r)))
    ∧ (r.status = 401 → handleResponse r = .thrown (AuthenticationError (responseMessage r)))
    ∧ (r.status = 403 → handleResponse r = .thrown (AuthorizationError (responseMessage r)))
    ∧ (r.status = 404 →
        handleResponse r = .thrown (NotFoundError (responseMessage r) (some (responseCode r))))
    ∧ (r.status = 409 →
        handleResponse r = .thrown (ConflictError (responseMessage r) (some (responseCode r))))
    ∧ (r.status = 429 →
        handleResponse r =
          .thrown (RateLimitError (responseMessage r) (retryAfterOf r.retryAfterHeader)))
    ∧ (¬(200 ≤ r.status ∧ r.status ≤ 299) →
        r.status ≠ 400 → r.status ≠ 401 → r.status ≠ 403 → r.status ≠ 404 →
        r.status ≠ 409 → r.status ≠ 429 →
        (∀ e c, errorBodyOf r.body = some (.obj e c) →
          handleResponse r = .thrown (ApiError e r.status c))
        ∧ ((errorBodyOf r.body = none ∨ errorBodyOf r.body = some .falsy) →
          handleResponse r =
            .thrown (ApiError (some (responseMessage r)) r.status (some (responseCode r))))) := by
  refine ⟨?_, ?_, ?_, ?_, ?_, ?_, ?_, ?_, ?_, ?_⟩
  · intro h
    simp [handleResponse, h]
  · intro h200 h299 h204 hct
    simp [handleResponse, h200, h299, h204, hct]
  · intro v h200 h299 h204 hct hbody
    simp [handleResponse, h200, h299, h204, hct, hbody]
  · intro h
    simp [handleResponse, h]
  · intro h
    simp [handleResponse, h]
  · intro h
    simp [handleResponse, h]
  · intro h
    simp [handleResponse, h]
  · intro h
    simp [handleResponse, h]
  · intro h
    simp [handleResponse, h]
  · intro hnot2 h400 h401 h403 h404 h409 h429
    constructor
    · intro e c hbody
      simp [handleResponse, hnot2, h400, h401, h403, h404, h409, h429, hbody,
        ApiError.fromResponse]
    · intro hbody
      rcases hbody with hbody | hbody <;>
        simp [handleResponse, hnot2, h400, h401, h403, h404, h409, h429, hbody]

/-- Claim C2 witness: the amended classification applied to a concrete 204
response with an unparseable body. -/
theorem handleResponse_classification_witness :
    handleResponse ⟨204, "No Content", none, none, .unparseable⟩ = .success .successTrue :=
  (handleResponse_classification ⟨204, "No Content", none, none, .unparseable⟩).1 rfl

/-- Claim C7, counterexample: a 404 response with an unparseable body throws
a NotFound error whose code is UNKNOWN_ERROR, not NOT_FOUND: the code local
is defaulted to UNKNOWN_ERROR before it reaches the NotFoundError
constructor, so the constructor's NOT_FOUND default never applies. -/
theorem notFound_default_code_counterexample :
    handleResponse ⟨404, "Not Found", none, none, .unparseable⟩ =
      .thrown (.mk .notFound "HTTP 404: Not Found" (some 404) (some "UNKNOWN_ERROR") .absent none)
    ∧ (ErrRecord.mk .notFound "HTTP 404: Not Found" (some 404) (some "UNKNOWN_ERROR")
        .absent none).code ≠ some "NOT_FOUND" := by
  exact ⟨rfl, by decide⟩

/-- Claim C7 as amended: for a 404 or 409 response whose parsed body carries
neither an error nor a code field (absent, unparseable or fieldless body),
the thrown NotFound or Conflict error carries the fallback message and code
UNKNOWN_ERROR; the constructor defaults NOT_FOUND and CONFLICT would apply
only to an empty-string code field. -/
theorem notFound_conflict_unstructured_code (r : HttpResponse)
    (herr : errField (errorBodyOf r.body) = none)
    (hcode : codeField (errorBodyOf r.body) = none) :
    (r.status = 404 →
      handleResponse r =
        .thrown (.mk .notFound ("HTTP " ++ toString r.status ++ ": " ++ r.statusText)
          (some 404) (some "UNKNOWN_ERROR") .absent none))
    ∧ (r.status = 409 →
      handleResponse r =
        .thrown (.mk .conflict ("HTTP " ++ toString r.status ++ ": " ++ r.statusText)
          (some 409) (some "UNKNOWN_ERROR") .absent none)) := by
  constructor
  · intro h
    simp [handleResponse, h, responseMessage, responseCode, herr, hcode, NotFoundError,
      jsOrDefault]
  · intro h
    simp [handleResponse, h, responseMessage, responseCode, herr, hcode, ConflictError,
      jsOrDefault]

/-- Claim C7 witness: the amended statement applied to a concrete 404
response with an unparseable body. -/
theorem notFound_conflict_unstructured_code_witness :
    handleResponse ⟨404, "Not Found", none, none, .unparseable⟩ =
      .thrown (.mk .notFound ("HTTP " ++ toString 404 ++ ": " ++ "Not Found")
        (some 404) (some "UNKNOWN_ERROR") .absent none) :=
  (notFound_conflict_unstructured_code ⟨404, "Not Found", none, none, .unparseable⟩
    rfl rfl).1 rfl

/-! ## Claims about transport failures -/

/-- Claim C5: an AbortError rejection settles as a Network error whose
message states the configured timeout bound, carrying no statusCode; with
the default timeout of 30000 the message is exactly
"Request timeout after 30000ms". -/
theorem timeout_network_error (config : HttpConfig) (m : String) :
    settleRequest config (.err (.abortError m)) =
      .failure (NetworkError ("Request timeout after " ++ toString config.timeout ++ "ms") none)
    ∧ (NetworkError ("Request timeout after " ++ toString config.timeout ++ "ms")
        none).statusCode = none
    ∧ (config.timeout = 30000 →
      settleRequest config (.err (.abortError m)) =
        .failure (NetworkError "Request timeout after 30000ms" none)) := by
  refine ⟨rfl, rfl, ?_⟩
  intro h
  simp [settleRequest, classifyThrown, h]
  rfl

/-- Claim C5 witness: the timeout message at the default configuration. -/
theorem timeout_network_error_witness :
    settleRequest ⟨"https://api.example.com", 30000⟩ (.err (.abortError "aborted")) =
      .failure (NetworkError "Request timeout after 30000ms" none) :=
  (timeout_network_error ⟨"https://api.example.com", 30000⟩ "aborted").2.2 rfl

/-- Claim C6, counterexample: a ValidationError rejected by the transport is
not an instance of the generic ApiError class (both extend LdapRestError as
siblings), so the catch clause wraps it into a fresh Network error instead
of re-throwing it unchanged. -/
theorem rewrap_counterexample :
    classifyThrown 30000 (.pipelineErr (ValidationError "boom")) =
      NetworkError "Network request failed: boom" (some (.pipelineErr (ValidationError "boom")))
    ∧ (NetworkError "Network request failed: boom"
        (some (.pipelineErr (ValidationError "boom")))).kind ≠ (ValidationError "boom").kind := by
  exact ⟨rfl, by decide⟩

/-- Claim C6 as amended: only rejections that are instances of NetworkError
or of the generic ApiError class are re-thrown unchanged; every other
rejection, including the specialized variants Validation, Authentication,
Authorization, NotFound, Conflict and RateLimit, is wrapped exactly once as
a Network error whose message appends the original message and whose cause
references the original Error object when there is one. -/
theorem classifyThrown_cases (timeout : Nat) (t : Thrown) :
    (∀ e, t = .pipelineErr e → (e.kind = .network ∨ e.kind = .api) →
      classifyThrown timeout t = e)
    ∧ (∀ e, t = .pipelineErr e → ¬(e.kind = .network ∨ e.kind = .api) →
      classifyThrown timeout t =
        NetworkError ("Network request failed: " ++ e.message) (some (.pipelineErr e)))
    ∧ (∀ m, t = .otherError m →
      classifyThrown timeout t =
        NetworkError ("Network request failed: " ++ m) (some (.otherError m)))
    ∧ (t = .nonError →
      classifyThrown timeout t = NetworkError "Network request failed: Unknown error" none) := by
  refine ⟨?_, ?_, ?_, ?_⟩
  · intro e ht hk
    subst ht
    simp [classifyThrown, hk]
  · intro e ht hk
    subst ht
    simp [classifyThrown, hk]
  · intro m ht
    subst ht
    simp [classifyThrown]
  · intro ht
    subst ht
    simp [classifyThrown]

/-- Claim C6 witness: the amended statement applied to a non-Error
rejection. -/
theorem classifyThrown_cases_witness :
    classifyThrown 30000 .nonError =
      NetworkError "Network request failed: Unknown error" none :=
  (classifyThrown_cases 30000 .nonError).2.2.2 rfl

/-! ## Claims about request building -/

/-- Claim C4: the body is serialized once and the identical string is both
handed to the signer and transmitted; an absent body means neither a signed
nor a transmitted body string. -/
theorem body_serialized_once {β : Type} (stringify : β → String) (truthy : β → Bool)
    (auth : Option (SignatureParams → String)) (config : HttpConfig)
    (options : RequestOptions β) :
    (∀ b, options.body = some b → truthy b = true →
      (buildFetchCall stringify truthy auth config options).body = some (stringify b)
      ∧ (buildFetchCall stringify truthy auth config options).signParams.body =
        some (stringify b))
    ∧ (options.body = none →
      (buildFetchCall stringify truthy auth config options).body = none
      ∧ (buildFetchCall stringify truthy auth config options).signParams.body = none) := by
  constructor
  · intro b hb ht
    constructor <;> simp [buildFetchCall, hb, ht]
  · intro hb
    constructor <;> simp [buildFetchCall, hb]

/-- Claim C4 witness: a concrete request with a truthy body. -/
theorem body_serialized_once_witness :
    (buildFetchCall (fun s => s) (fun _ => true) none ⟨"https://api.example.com", 30000⟩
      (⟨"POST", "/api/v1/users", some "payload", none⟩ : RequestOptions String)).body =
      some "payload"
    ∧ (buildFetchCall (fun s => s) (fun _ => true) none ⟨"https://api.example.com", 30000⟩
      (⟨"POST", "/api/v1/users", some "payload", none⟩ :
        RequestOptions String)).signParams.body = some "payload" :=
  (body_serialized_once (fun s => s) (fun _ => true) none ⟨"https://api.example.com", 30000⟩
    ⟨"POST", "/api/v1/users", some "payload", none⟩).1 "payload" rfl rfl

/-- Claim C8, counterexample: with no caller headers the built header object
carries the Content-Type default but no Accept header at all, so the claimed
JSON Content-Type and Accept pair of defaults is not sent. -/
theorem headers_no_accept_counterexample :
    (buildFetchCall (fun s => s) (fun _ => true) none ⟨"https://api.example.com", 30000⟩
      (⟨"GET", "/api/v1/users", none, none⟩ : RequestOptions String)).headers "Accept" = none
    ∧ (buildFetchCall (fun s => s) (fun _ => true) none ⟨"https://api.example.com", 30000⟩
      (⟨"GET", "/api/v1/users", none, none⟩ : RequestOptions String)).headers "Content-Type" =
      some "application/json" := by
  exact ⟨rfl, rfl⟩

/-- Claim C8 as amended: the only default header is the JSON Content-Type
(no Accept header is ever set by the client); caller-supplied headers take
precedence over that default; and the computed Authorization value
overrides any caller-supplied one whenever the configured signer's output
is nonempty. -/
theorem headers_construction {β : Type} (stringify : β → String) (truthy : β → Bool)
    (auth : Option (SignatureParams → String)) (config : HttpConfig)
    (options : RequestOptions β) :
    (options.extHeader "Content-Type" = none →
      (buildFetchCall stringify truthy auth config options).headers "Content-Type" =
        some "application/json")
    ∧ (∀ k v, options.extHeader k = some v → k ≠ "Authorization" →
      (buildFetchCall stringify truthy auth config options).headers k = some v)
    ∧ (∀ sgn, auth = some sgn →
      sgn (buildFetchCall stringify truthy auth config options).signParams ≠ "" →
      (buildFetchCall stringify truthy auth config options).headers "Authorization" =
        some (sgn (buildFetchCall stringify truthy auth config options).signParams))
    ∧ ((buildFetchCall stringify truthy auth config options).headers "Accept" =
      options.extHeader "Accept") := by
  refine ⟨?_, ?_, ?_, ?_⟩
  · intro hct
    rcases hopt : options.headers with _ | ext
    · simp [buildFetchCall, hopt]
    · simp [RequestOptions.extHeader, hopt] at hct
      simp [buildFetchCall, hopt, hct, Option.orElse]
  · intro k v hk hknot
    rcases hopt : options.headers with _ | ext
    · simp [RequestOptions.extHeader, hopt] at hk
    · simp [RequestOptions.extHeader, hopt] at hk
      simp [buildFetchCall, hopt, hknot, hk, Option.orElse]
  · intro sgn hsgn hne
    simp [buildFetchCall, hsgn] at hne ⊢
    simp [hne]
  · rcases hopt : options.headers with _ | ext
    · simp [buildFetchCall, RequestOptions.extHeader, hopt]
    · simp [buildFetchCall, RequestOptions.extHeader, hopt, Option.orElse]
      cases ext "Accept" <;> simp

/-- Claim C8 witness: the amended statement applied to a request without
caller headers. -/
theorem headers_construction_witness :
    (buildFetchCall (fun s => s) (fun _ => true) none ⟨"https://api.example.com", 30000⟩
      (⟨"GET", "/api/v1/users", none, none⟩ : RequestOptions String)).headers "Content-Type" =
      some "application/json" :=
  (headers_construction (fun s => s) (fun _ => true) none ⟨"https://api.example.com", 30000⟩
    ⟨"GET", "/api/v1/users", none, none⟩).1 rfl

/-- The HMAC signer's header value always starts with the scheme tag, so it
is never the empty string. -/
theorem sign_ne_empty (sha256hex : String → String)
    (hmacSha256hex : String → String → String) (config : HmacAuthConfig)
    (params : SignatureParams) (t : Nat) :
    HmacAuth.sign sha256hex hmacSha256hex config params t ≠ "" := by
  intro h
  have hd := congrArg String.data h
  simp [HmacAuth.sign, String.data_append] at hd

/-- Claim C9: with the HMAC signer configured the Authorization header is
set to the signer's output and ambient credentials are not requested; with
no signer configured (and the caller not supplying an Authorization header
of their own) no Authorization header is present and ambient credentials
are requested. -/
theorem auth_modes (sha256hex : String → String)
    (hmacSha256hex : String → String → String) (acfg : HmacAuthConfig) (t : Nat)
    {β : Type} (stringify : β → String) (truthy : β → Bool) (config : HttpConfig)
    (options : RequestOptions β)
    (hnoext : options.extHeader "Authorization" = none) :
    ((buildFetchCall stringify truthy
        (some (fun p => HmacAuth.sign sha256hex hmacSha256hex acfg p t)) config
        options).headers "Authorization" =
      some (HmacAuth.sign sha256hex hmacSha256hex acfg
        (buildFetchCall stringify truthy
          (some (fun p => HmacAuth.sign sha256hex hmacSha256hex acfg p t)) config
          options).signParams t)
    ∧ (buildFetchCall stringify truthy
        (some (fun p => HmacAuth.sign sha256hex hmacSha256hex acfg p t)) config
        options).credentialsInclude = false)
    ∧ ((buildFetchCall stringify truthy none config options).headers "Authorization" = none
    ∧ (buildFetchCall stringify truthy none config options).credentialsInclude = true) := by
  refine ⟨⟨?_, ?_⟩, ?_, ?_⟩
  · simp [buildFetchCall, sign_ne_empty]
  · simp [buildFetchCall, sign_ne_empty]
  · rcases hopt : options.headers with _ | ext
    · simp [buildFetchCall, hopt]
    · have := hnoext
      simp [RequestOptions.extHeader, hopt] at this
      simp [buildFetchCall, hopt, this, Option.orElse]
  · simp [buildFetchCall]

/-- Claim C9 witness: both modes at a concrete request. -/
theorem auth_modes_witness :
    ((buildFetchCall (fun s => s) (fun _ => true)
        (some (fun p => HmacAuth.sign (fun _ => "h") (fun _ _ => "s") ⟨"svc", "secret"⟩ p 7))
        ⟨"https://api.example.com", 30000⟩
        (⟨"GET", "/api/v1/users", none, none⟩ : RequestOptions String)).headers
          "Authorization" =
      some (HmacAuth.sign (fun _ => "h") (fun _ _ => "s") ⟨"svc", "secret"⟩
        (buildFetchCall (fun s => s) (fun _ => true)
          (some (fun p => HmacAuth.sign (fun _ => "h") (fun _ _ => "s") ⟨"svc", "secret"⟩ p 7))
          ⟨"https://api.example.com", 30000⟩
          (⟨"GET", "/api/v1/users", none, none⟩ : RequestOptions String)).signParams 7)
    ∧ (buildFetchCall (fun s => s) (fun _ => true)
        (some (fun p => HmacAuth.sign (fun _ => "h") (fun _ _ => "s") ⟨"svc", "secret"⟩ p 7))
        ⟨"https://api.example.com", 30000⟩
        (⟨"GET", "/api/v1/users", none, none⟩ :
          RequestOptions String)).credentialsInclude = false)
    ∧ ((buildFetchCall (fun s => s) (fun _ => true) none ⟨"https://api.example.com", 30000⟩
        (⟨"GET", "/api/v1/users", none, none⟩ : RequestOptions String)).headers
          "Authorization" = none
    ∧ (buildFetchCall (fun s => s) (fun _ => true) none ⟨"https://api.example.com", 30000⟩
        (⟨"GET", "/api/v1/users", none, none⟩ :
          RequestOptions String)).credentialsInclude = true) :=
  auth_modes (fun _ => "h") (fun _ _ => "s") ⟨"svc", "secret"⟩ 7 (fun s => s)
    (fun _ => true) ⟨"https://api.example.com", 30000⟩
    ⟨"GET", "/api/v1/users", none, none⟩ rfl

/-- Claim C10: when the configured signer returns the empty string for a
call, the fetch call built is identical to the one built with no signer
configured: no Authorization header and ambient credentials included; the
mode is chosen per call from the truthiness of the sign output. -/
theorem empty_sign_output_cookie_mode {β : Type} (stringify : β → String)
    (truthy : β → Bool) (sgn : SignatureParams → String) (config : HttpConfig)
    (options : RequestOptions β)
    (h : sgn (buildFetchCall stringify truthy (some sgn) config options).signParams = "") :
    buildFetchCall stringify truthy (some sgn) config options =
      buildFetchCall stringify truthy none config options := by
  simp only [buildFetchCall] at h ⊢
  simp [h]

/-- Claim C10 witness: a signer that returns the empty string behaves like
no signer at a concrete request. -/
theorem empty_sign_output_cookie_mode_witness :
    buildFetchCall (fun (s : String) => s) (fun _ => true) (some (fun _ => ""))
      ⟨"https://api.example.com", 30000⟩ ⟨"GET", "/api/v1/users", none, none⟩ =
      buildFetchCall (fun (s : String) => s) (fun _ => true) none
        ⟨"https://api.example.com", 30000⟩ ⟨"GET", "/api/v1/users", none, none⟩ :=
  empty_sign_output_cookie_mode (fun s => s) (fun _ => true) (fun _ => "")
    ⟨"https://api.example.com", 30000⟩ ⟨"GET", "/api/v1/users", none, none⟩ rfl

end LdapRest

namespace LdapRest

/-- Claim C1: for every (method, path, body) input and fixed signing timestamp
t, HmacAuth.sign returns exactly the string "HMAC-SHA256 " followed by the
service id, t and the signature, colon separated, where the signature is the
HMAC-SHA256 hex digest, keyed by the configured secret, of the canonical
signing string METHOD, path, t and bodyHash joined by pipes, METHOD being the
uppercased method and t captured once per call.  Determinism given a fixed
timestamp is immediate since sign is a function of its arguments. -/
theorem sign_header_format (sha256hex : String → String)
    (hmacSha256hex : String → String → String)
    (config : HmacAuthConfig) (params : SignatureParams) (t : Nat) :
    HmacAuth.sign sha256hex hmacSha256hex config params t =
      "HMAC-SHA256 " ++ config.serviceId ++ ":" ++ toString t ++ ":" ++
        hmacSha256hex config.secret
          (params.method.toUpper ++ "|" ++ params.path ++ "|" ++ toString t ++ "|" ++
            HmacAuth.hashBody sha256hex params.method params.body) := by
  rfl

/-- Claim C3: the bodyHash component is the empty string whenever the
uppercased method is GET, DELETE or HEAD regardless of body content, or
whenever the body is absent or blank after trimming; in every other case it
is the hex SHA-256 digest of the body. -/
theorem hashBody_cases (sha256hex : String → String) (method : String)
    (body : Option String) :
    HmacAuth.hashBody sha256hex method body =
      if method.toUpper = "GET" ∨ method.toUpper = "DELETE" ∨ method.toUpper = "HEAD" then
        ""
      else
        match body with
        | none => ""
        | some b => if b.trim.length = 0 then "" else sha256hex b := by
  rfl

end LdapRest
